import Mathlib

/-!
Shallow embedding of the testwindowtabs repository's button interaction
state machine, window-chrome hit testing, DPI-aware layout and the small
geometry/registration utilities (src/button.rs, src/main.rs, src/wutils.rs).

Machine integers (`i32`, `u32`, `COLORREF`) are modelled as `Int`/`Nat`;
none of the verified operations can overflow at the values involved.
Platform queries that a handler performs live (cursor containment, the
primary-button bit of `wparam`, elapsed time comparisons) are inputs of the
corresponding event constructor, and platform side effects (invalidate,
mouse capture, posted messages, callback invocation) are recorded in an
emitted event trace.
-/

namespace Twt

/-- Mirrors `button.rs` `enum State { None, Hover, Down }`. -/
inductive State where
  | none
  | hover
  | down
deriving DecidableEq, Repr

/-- Mirrors `button.rs` `struct Colors { default, hover, down: COLORREF }`;
`COLORREF` is a 32-bit `0x00bbggrr` value, modelled as `Nat`. -/
structure Colors where
  default : Nat
  hover : Nat
  down : Nat
deriving DecidableEq, Repr

/-- Mirrors the `RGB` macro: `r | g << 8 | b << 16`. -/
def RGB (r g b : Nat) : Nat :=
  r ||| (g <<< 8) ||| (b <<< 16)

/-- Mouse/paint messages handled by `Button::handle_message` and
`ToggleButton::handle_message`. Boolean parameters carry the live platform
queries the handler makes: `inside` is the result of `is_mouse_over()`
(cursor inside the client rectangle) at the time the event is processed,
`held` is the `wparam & MK_LBUTTON > 0` test of `WM_MOUSEMOVE`, and
`elapsedLt50` is the `started.elapsed().as_millis() < 50` test of the
deferred-invalidate tick `UM_INVALIDATE`. -/
inductive Msg where
  | umInvalidate (elapsedLt50 : Bool)
  | paint
  | mouseLeave
  | mouseMove (inside held : Bool)
  | lbuttonDown (inside : Bool)
  | lbuttonUp (inside : Bool)
deriving DecidableEq, Repr

/-- Observable side effects emitted by a handler, in program order:
`invalidate` is `InvalidateRect`, `postInvalidate` a `PostMessageW` of
`UM_INVALIDATE`, `trackMouse` a `TrackMouseEvent` registration,
`setCapture`/`releaseCapture` the mouse-capture calls, `toggleFlip` the
flip of `is_toggled` inside `ToggleButton::toggle`, and `click` the
invocation of the user's `onClick` callback. -/
inductive Evt where
  | invalidate
  | postInvalidate
  | trackMouse
  | setCapture
  | releaseCapture
  | toggleFlip
  | click
deriving DecidableEq, Repr

/-- Selects the click/toggle notifications out of an emitted trace. -/
def Evt.isClickOrFlip : Evt → Bool
  | .click => true
  | .toggleFlip => true
  | _ => false

/-- True exactly on the primary-button messages `WM_LBUTTONDOWN` and
`WM_LBUTTONUP`. -/
def Msg.isPrimaryButton : Msg → Bool
  | .lbuttonDown _ => true
  | .lbuttonUp _ => true
  | _ => false

/-- Mirrors `button.rs` `struct Button`. `deferred_start : Option<Instant>`
is modelled by whether it is `Some`; `click_cb : Option<CbFn>` by whether a
callback is registered (`has_click_cb`); `has_capture` records the effect
of the `SetCapture`/`ReleaseCapture` calls the handler itself makes. The
paint callbacks play no role in the verified properties and are omitted. -/
structure Button where
  state : State
  track_mouse_leave : Bool
  is_down : Bool
  is_visual_down : Bool
  deferred_start : Bool
  deferred_running : Bool
  has_click_cb : Bool
  has_capture : Bool
  colors : Colors
deriving DecidableEq, Repr

/-- Mirrors `button.rs` `struct ToggleButton`: the `Button` fields plus
`is_toggled` and the second color set. -/
structure ToggleButton where
  state : State
  track_mouse_leave : Bool
  is_down : Bool
  is_visual_down : Bool
  deferred_start : Bool
  deferred_running : Bool
  has_click_cb : Bool
  has_capture : Bool
  is_toggled : Bool
  colors : Colors
  toggled_colors : Colors
deriving DecidableEq, Repr

/-- Initial `Button` as built by `Button::new`: `state: None`, all flags
false, no callbacks registered, the given color set. -/
def Button.initial (c : Colors) : Button :=
  { state := .none
    track_mouse_leave := false
    is_down := false
    is_visual_down := false
    deferred_start := false
    deferred_running := false
    has_click_cb := false
    has_capture := false
    colors := c }

/-- Initial `ToggleButton` as built by `ToggleButton::new`:
additionally `is_toggled: false`. -/
def ToggleButton.initial (c tc : Colors) : ToggleButton :=
  { state := .none
    track_mouse_leave := false
    is_down := false
    is_visual_down := false
    deferred_start := false
    deferred_running := false
    has_click_cb := false
    has_capture := false
    is_toggled := false
    colors := c
    toggled_colors := tc }

/-- Default-path background color of `Button::paint` (button.rs:239-247):
`colors.down` while `is_visual_down`, otherwise the color selected by
`state` from the color set. -/
def Button.bg_color (b : Button) : Nat :=
  if b.is_visual_down then b.colors.down
  else
    match b.state with
    | .none => b.colors.default
    | .hover => b.colors.hover
    | .down => b.colors.down

/-- Default-path background color of `ToggleButton::paint`
(button.rs:516-530): the effective color set is `toggled_colors` when
`is_toggled`, else `colors`; then the same `is_visual_down`/`state`
selection as `Button::paint`. -/
def ToggleButton.bg_color (t : ToggleButton) : Nat :=
  let colors := if t.is_toggled then t.toggled_colors else t.colors
  if t.is_visual_down then colors.down
  else
    match t.state with
    | .none => colors.default
    | .hover => colors.hover
    | .down => colors.down

/-- Translation of `Button::handle_message` (button.rs:263-355). Each arm
returns the updated button and the side effects in program order. In the
`WM_MOUSEMOVE` arm the source sets `track_mouse_leave := true` only inside
the `if !self.track_mouse_leave` branch; writing it unconditionally is the
same state, and the `TrackMouseEvent` call is emitted only when the flag
was clear, exactly as in the source. -/
def Button.handle_message (b : Button) (m : Msg) : Button × List Evt :=
  match m with
  | .umInvalidate elapsedLt50 =>
    if b.deferred_start then
      if elapsedLt50 then
        (b, [.invalidate, .postInvalidate])
      else
        ({ b with deferred_running := false, is_visual_down := false }, [.invalidate])
    else
      (b, [.invalidate])
  | .paint => (b, [])
  | .mouseLeave =>
    ({ b with track_mouse_leave := false, state := .none }, [.invalidate])
  | .mouseMove inside held =>
    let trackOut : List Evt := if b.track_mouse_leave then [] else [.trackMouse]
    let newState : State :=
      if inside && b.is_down then
        if held then .down else .hover
      else .hover
    let b' := { b with track_mouse_leave := true, state := newState }
    (b', trackOut ++ (if b.state = newState then [] else [.invalidate]))
  | .lbuttonDown _ =>
    -- state/is_down/is_visual_down writes, InvalidateRect, deferred_invalidate
    -- (sets deferred_start, posts UM_INVALIDATE if not already running), SetCapture.
    let postOut : List Evt := if b.deferred_running then [] else [.postInvalidate]
    ({ b with
        state := .down
        is_down := true
        is_visual_down := true
        deferred_start := true
        deferred_running := true
        has_capture := true },
      [.invalidate] ++ postOut ++ [.setCapture])
  | .lbuttonUp inside =>
    let clickOut : List Evt :=
      if inside && b.is_down && b.has_click_cb then [.click] else []
    let newState : State := if inside then .hover else .none
    let b' := { b with state := newState, is_down := false, has_capture := false }
    (b', clickOut ++ (if b.state = newState then [] else [.invalidate]) ++ [.releaseCapture])

/-- Translation of `ToggleButton::toggle` (button.rs:501-505): flip
`is_toggled`, request a redraw. -/
def ToggleButton.toggle (t : ToggleButton) : ToggleButton × List Evt :=
  ({ t with is_toggled := !t.is_toggled }, [.toggleFlip, .invalidate])

/-- Translation of `ToggleButton::handle_message` (button.rs:546-638).
Identical to `Button::handle_message` except that a successful release
inside the bounds first calls `toggle()` and only then the `onClick`
callback. -/
def ToggleButton.handle_message (t : ToggleButton) (m : Msg) : ToggleButton × List Evt :=
  match m with
  | .umInvalidate elapsedLt50 =>
    if t.deferred_start then
      if elapsedLt50 then
        (t, [.invalidate, .postInvalidate])
      else
        ({ t with deferred_running := false, is_visual_down := false }, [.invalidate])
    else
      (t, [.invalidate])
  | .paint => (t, [])
  | .mouseLeave =>
    ({ t with track_mouse_leave := false, state := .none }, [.invalidate])
  | .mouseMove inside held =>
    let trackOut : List Evt := if t.track_mouse_leave then [] else [.trackMouse]
    let newState : State :=
      if inside && t.is_down then
        if held then .down else .hover
      else .hover
    let t' := { t with track_mouse_leave := true, state := newState }
    (t', trackOut ++ (if t.state = newState then [] else [.invalidate]))
  | .lbuttonDown _ =>
    let postOut : List Evt := if t.deferred_running then [] else [.postInvalidate]
    ({ t with
        state := .down
        is_down := true
        is_visual_down := true
        deferred_start := true
        deferred_running := true
        has_capture := true },
      [.invalidate] ++ postOut ++ [.setCapture])
  | .lbuttonUp inside =>
    let fires := inside && t.is_down
    let notifyOut : List Evt :=
      (if fires then [Evt.toggleFlip, Evt.invalidate] else []) ++
        (if fires && t.has_click_cb then [Evt.click] else [])
    let newState : State := if inside then .hover else .none
    let t' :=
      { t with
          state := newState
          is_down := false
          has_capture := false
          is_toggled := if fires then !t.is_toggled else t.is_toggled }
    (t', notifyOut ++ (if t.state = newState then [] else [.invalidate]) ++ [.releaseCapture])

/-- Dispatches a sequence of messages to a `Button`, concatenating the
emitted traces. -/
def Button.run (b : Button) : List Msg → Button × List Evt
  | [] => (b, [])
  | m :: ms =>
    let r := b.handle_message m
    let rest := r.1.run ms
    (rest.1, r.2 ++ rest.2)

/-- Dispatches a sequence of messages to a `ToggleButton`. -/
def ToggleButton.run (t : ToggleButton) : List Msg → ToggleButton × List Evt
  | [] => (t, [])
  | m :: ms =>
    let r := t.handle_message m
    let rest := r.1.run ms
    (rest.1, r.2 ++ rest.2)

/-! ## Geometry, layout and hit testing (wutils.rs, main.rs) -/

/-- Win32 `RECT` with `i32` fields, modelled over `Int`. -/
structure Rect where
  left : Int
  top : Int
  right : Int
  bottom : Int
deriving DecidableEq, Repr

/-- Mirrors `wutils.rs` `struct TitleBarButtonRects`. -/
structure TitleBarButtonRects where
  close : Rect
  maximize : Rect
  minimize : Rect
deriving DecidableEq, Repr

/-- Constant `wutils::TOP_AND_BOTTOM_BORDERS`. -/
def TOP_AND_BOTTOM_BORDERS : Int := 2

/-- Constant `wutils::FAKE_SHADOW_HEIGHT`. -/
def FAKE_SHADOW_HEIGHT : Int := 1

/-- Translation of `wutils::dpi_scale`:
`(value as f32 * dpi as f32 / 96f32) as i32`. The source computes in `f32`
and truncates toward zero; for every `value*dpi` with absolute value below
`2^24` the `f32` product is exact and the rounded quotient truncates to the
same integer as exact truncated division, so the function is modelled as
truncated integer division. -/
def dpi_scale (value : Int) (dpi : Nat) : Int :=
  Int.tdiv (value * (dpi : Int)) 96

/-- Translation of `wutils::get_titlebar_rect` (wutils.rs:165-208). The
themed caption part size (`GetThemePartSize` result `size.cy`) and the
window's client rectangle and DPI are platform inputs; the function scales
the caption height by the DPI, adds the two-pixel border constant and
clips the client rectangle to that height. -/
def get_titlebar_rect (clientRect : Rect) (captionCy : Int) (dpi : Nat) : Rect :=
  let height := dpi_scale captionCy dpi + TOP_AND_BOTTOM_BORDERS
  { clientRect with bottom := clientRect.top + height }

/-- Translation of `wutils::get_titlebar_button_rects` (wutils.rs:217-251):
the close rectangle is the title-bar rectangle with its top pushed down by
`FAKE_SHADOW_HEIGHT` and its left pulled to one DPI-scaled button width
from the right edge; maximize and minimize are shifted left from it by one
button width each. -/
def get_titlebar_button_rects (dpi : Nat) (title_bar_rect : Rect) : TitleBarButtonRects :=
  let button_width := dpi_scale 47 dpi
  let close0 := { title_bar_rect with top := title_bar_rect.top + FAKE_SHADOW_HEIGHT }
  let close := { close0 with left := close0.right - button_width }
  let maximize := { close with
    left := close.left - button_width
    right := close.right - button_width }
  let minimize := { maximize with
    left := maximize.left - button_width
    right := maximize.right - button_width }
  { close := close, maximize := maximize, minimize := minimize }

/-- Positions of the three chrome buttons of the top-level window, the
mutable state written by `Window::reposition_component` via `MoveWindow`. -/
structure ChildPositions where
  minimizePos : Rect
  maximizePos : Rect
  closePos : Rect
deriving DecidableEq, Repr

/-- Translation of `Window::reposition_components` (main.rs:494-505):
recompute the title-bar rectangle and the button rectangles from the
current client rectangle, caption metric and DPI, and move every child to
its freshly computed rectangle. The computed tab rectangle is unused in
this variant (the tab-bar reposition call is commented out in the source),
and the previous child positions are never read. -/
def reposition_components (pos : ChildPositions) (clientRect : Rect)
    (captionCy : Int) (dpi : Nat) : ChildPositions :=
  let title_bar_rect := get_titlebar_rect clientRect captionCy dpi
  let button_rects := get_titlebar_button_rects dpi title_bar_rect
  { pos with
      minimizePos := button_rects.minimize
      maximizePos := button_rects.maximize
      closePos := button_rects.close }

/-- Win32 hit-test result codes used by `Window::handle_message`'s
`WM_NCHITTEST` arm. -/
def HTNOWHERE : Int := 0
def HTCLIENT : Int := 1
def HTCAPTION : Int := 2
def HTLEFT : Int := 10
def HTRIGHT : Int := 11
def HTTOP : Int := 12
def HTTOPLEFT : Int := 13
def HTTOPRIGHT : Int := 14
def HTBOTTOM : Int := 15
def HTBOTTOMLEFT : Int := 16
def HTBOTTOMRIGHT : Int := 17

/-- True on the results that the `WM_NCHITTEST` arm passes through
unchanged from `DefWindowProcW` (main.rs:537-543): `HTNOWHERE` plus the
eight resize-border codes. -/
def isPassthroughHit (r : Int) : Bool :=
  r == HTNOWHERE || r == HTRIGHT || r == HTLEFT || r == HTTOPLEFT ||
    r == HTTOP || r == HTTOPRIGHT || r == HTBOTTOMRIGHT || r == HTBOTTOM ||
    r == HTBOTTOMLEFT

/-- Translation of the `WM_NCHITTEST` arm of `Window::handle_message`
(main.rs:533-567). `defResult` is what `DefWindowProcW` returned, `frameY`
and `padding` the DPI-scaled `SM_CYFRAME`/`SM_CXPADDEDBORDER` metrics,
`titlebarBottom` the bottom of `get_titlebar_rect`, and `y` the
client-relative cursor Y. -/
def nchittest (defResult frameY padding titlebarBottom y : Int) : Int :=
  if isPassthroughHit defResult then defResult
  else if 0 < y && y < frameY + padding then HTTOP
  else if y < titlebarBottom then HTCAPTION
  else HTCLIENT

/-! ## Class registration (wutils.rs) -/

/-- Mirrors `wutils.rs` `enum Error`; payloads are simplified to the data
the verified properties inspect. -/
inductive Error where
  | generic (msg : String)
  | windowsInternal
  | hresult (code : Int)
  | componentRegistryError
  | componentAlreadyRegistered
deriving DecidableEq, Repr

/-- Mirrors `wutils.rs` `ComponentRegistry`: a map from process-instance
handle to the set of class names registered for it, modelled as an
association list mirroring `HashMap<isize, HashMap<&str, bool>>` (the
inner value is always `true`). -/
structure ComponentRegistry where
  registry : List (Int × List (String × Bool))
deriving DecidableEq, Repr

/-- Inner per-instance map for a handle, defaulting to empty, as the
source materialises with `registry.insert(h_inst, HashMap::new())`. -/
def ComponentRegistry.instMap (r : ComponentRegistry) (hInst : Int) : List (String × Bool) :=
  ((r.registry.find? (fun p => p.1 == hInst)).map Prod.snd).getD []

/-- True when `class_name` is already recorded for `h_inst`. -/
def ComponentRegistry.isRegistered (r : ComponentRegistry) (hInst : Int)
    (className : String) : Bool :=
  ((r.instMap hInst).find? (fun p => p.1 == className)).isSome

/-- Translation of `ComponentRegistry::set_registered` (wutils.rs:61-80):
error with `ComponentAlreadyRegistered` when the (handle, class) key is
present, otherwise record it and succeed. The mutex-poisoning
`ComponentRegistryError` path cannot occur in the single-threaded model. -/
def ComponentRegistry.set_registered (r : ComponentRegistry) (hInst : Int)
    (className : String) : Except Error ComponentRegistry :=
  let hreg := r.instMap hInst
  if ((hreg.find? (fun p => p.1 == className)).isSome) then
    .error .componentAlreadyRegistered
  else
    .ok ⟨(hInst, (className, true) :: hreg) :: r.registry.filter (fun p => p.1 != hInst)⟩

/-- Result of one `register_class` call: the value returned to the caller,
the registry afterwards, and whether the native `RegisterClassW`
registration was attempted. -/
structure RegisterOutcome where
  result : Except Error Unit
  registry : ComponentRegistry
  attempted : Bool

/-- Translation of `wutils::register_class` (wutils.rs:96-125): attempt
the native registration only when `set_registered` succeeds, surface the
platform error when `RegisterClassW` fails (`platformOk = false`), and
treat `ComponentAlreadyRegistered` as success without attempting
registration. -/
def register_class (r : ComponentRegistry) (hInst : Int) (className : String)
    (platformOk : Bool) : RegisterOutcome :=
  match r.set_registered hInst className with
  | .ok r' =>
    if platformOk then ⟨.ok (), r', true⟩
    else ⟨.error .windowsInternal, r', true⟩
  | .error .componentAlreadyRegistered => ⟨.ok (), r, false⟩
  | .error e => ⟨.error e, r, false⟩

/-! ## Rectangle centering (wutils.rs) -/

/-- Translation of `wutils::center_rect_in_rect` (wutils.rs:281-292);
Rust `i32` division truncates toward zero, so `/ 2` is `Int.tdiv`. -/
def center_rect_in_rect (to_center outer_rect : Rect) : Rect :=
  let to_width := to_center.right - to_center.left
  let to_height := to_center.bottom - to_center.top
  let outer_width := outer_rect.right - outer_rect.left
  let outer_height := outer_rect.bottom - outer_rect.top
  let padding_x := Int.tdiv (outer_width - to_width) 2
  let padding_y := Int.tdiv (outer_height - to_height) 2
  { left := outer_rect.left + padding_x
    top := outer_rect.top + padding_y
    right := outer_rect.left + padding_x + to_width
    bottom := outer_rect.top + padding_y + to_height }

/-- `D2D1_RECT_F`: a rectangle of `f32` fields. The field values are
rationals that stand for the exact values of `f32` bit patterns; the
arithmetic of `center_d2drect_in_rect` rounds every intermediate result
back to the `f32` grid via `roundF32`. -/
structure D2DRectF where
  left : ℚ
  top : ℚ
  right : ℚ
  bottom : ℚ
deriving DecidableEq, Repr

/-- Number of binary digits of `n` (0 for 0, so `2^(b-1) ≤ n < 2^b` for
`n ≥ 1`), with explicit fuel so the recursion is structural. -/
def natBitLen : Nat → Nat → Nat
  | 0, _ => 0
  | fuel + 1, n => if n = 0 then 0 else natBitLen fuel (n / 2) + 1

/-- Decides `2^e ≤ n/d` for naturals `n, d ≥ 1` and an integer exponent,
by cross-multiplying into natural-number comparisons. -/
def pow2leRat (e : Int) (n d : Nat) : Bool :=
  if 0 ≤ e then decide (2 ^ e.toNat * d ≤ n) else decide (d ≤ 2 ^ (-e).toNat * n)

/-- Binade exponent of the positive rational `n/d` (`n, d ≥ 1`): the
unique `e` with `2^e ≤ n/d < 2^(e+1)`. The bit-length difference of
numerator and denominator pins `e` to two candidates; one comparison
settles it. -/
def qBinadePos (n d : Nat) : Int :=
  let e0 : Int := (natBitLen 300 n : Int) - (natBitLen 300 d : Int)
  if pow2leRat e0 n d then e0 else e0 - 1

/-- The rational `m * 2^k`. -/
def qOfScaled (m k : Int) : ℚ :=
  if 0 ≤ k then mkRat (m * ((2 ^ k.toNat : Nat) : Int)) 1 else mkRat m (2 ^ (-k).toNat)

/-- Rounds a positive rational to the IEEE binary32 grid: spacing
`2^(e-23)` in the binade `[2^e, 2^(e+1))` for normal values, floored at
the subnormal spacing `2^(-149)`. The scaled value `x / 2^k = N / D` is
rounded to the nearest integer `m` with ties to even, entirely in integer
arithmetic, and the result is `m * 2^k`. -/
def roundF32Pos (x : ℚ) : ℚ :=
  let n := x.num.natAbs
  let d := x.den
  let e := qBinadePos n d
  let k := max (e - 23) (-149)
  let N : Int := if k ≤ 0 then (n : Int) * ((2 ^ (-k).toNat : Nat) : Int) else (n : Int)
  let D : Int := if k ≤ 0 then (d : Int) else (d : Int) * ((2 ^ k.toNat : Nat) : Int)
  let q := N / D
  let r := N % D
  let m := if 2 * r < D then q else if D < 2 * r then q + 1
           else if q % 2 = 0 then q else q + 1
  qOfScaled m k

/-- IEEE binary32 round-to-nearest-even on exact rationals, by sign split.
Overflow to infinity is not modelled; every value in the verified
statements is far below the `f32` maximum. -/
def roundF32 (x : ℚ) : ℚ :=
  if x.num = 0 then 0
  else if 0 < x.num then roundF32Pos x
  else -roundF32Pos (-x)

/-- Exact rational addition computed on numerators and denominators (equal
to `+` on `ℚ` by `qAdd_eq_add`; the kernel-opaque `Rat.add` cannot be
evaluated by `decide`). -/
def qAdd (a b : ℚ) : ℚ :=
  mkRat (a.num * (b.den : Int) + b.num * (a.den : Int)) (a.den * b.den)

/-- Exact rational subtraction on numerators and denominators (equal to
`-` on `ℚ` by `qSub_eq_sub`). -/
def qSub (a b : ℚ) : ℚ :=
  mkRat (a.num * (b.den : Int) - b.num * (a.den : Int)) (a.den * b.den)

/-- Exact rational division on numerators and denominators (equal to `/`
on `ℚ` by `qDiv_eq_div`). -/
def qDiv (a b : ℚ) : ℚ := Rat.divInt (a.num * (b.den : Int)) ((a.den : Int) * b.num)

/-- `f32` addition: exact sum rounded to the binary32 grid. -/
def f32add (a b : ℚ) : ℚ := roundF32 (qAdd a b)

/-- `f32` subtraction: exact difference rounded to the binary32 grid. -/
def f32sub (a b : ℚ) : ℚ := roundF32 (qSub a b)

/-- `f32` division: exact quotient rounded to the binary32 grid. -/
def f32div (a b : ℚ) : ℚ := roundF32 (qDiv a b)

/-- Translation of `wutils::center_d2drect_in_rect` (wutils.rs:294-305)
with each `f32` operation modelled as the exact operation followed by
IEEE binary32 round-to-nearest-even, in the source's evaluation order. -/
def center_d2drect_in_rect (to_center outer_rect : D2DRectF) : D2DRectF :=
  let to_width := f32sub to_center.right to_center.left
  let to_height := f32sub to_center.bottom to_center.top
  let outer_width := f32sub outer_rect.right outer_rect.left
  let outer_height := f32sub outer_rect.bottom outer_rect.top
  let padding_x := f32div (f32sub outer_width to_width) 2
  let padding_y := f32div (f32sub outer_height to_height) 2
  let left := f32add outer_rect.left padding_x
  let top := f32add outer_rect.top padding_y
  { left := left
    top := top
    right := f32add left to_width
    bottom := f32add top to_height }

/-! ## Reachable button states -/

/-- Button states reachable from construction: the initial state for some
color set, registering an `onClick` callback, and processing any handled
message. -/
inductive Button.Reachable : Button → Prop where
  | init (c : Colors) : Button.Reachable (Button.initial c)
  | withClickCb {b : Button} :
      Button.Reachable b → Button.Reachable { b with has_click_cb := true }
  | step {b : Button} (m : Msg) :
      Button.Reachable b → Button.Reachable (b.handle_message m).1

/-! ## Helper lemmas about the button state machine -/

/-- A message other than the primary-button down/up messages preserves the
press-in-progress flag, the callback slot and the capture flag of a
`Button`, and emits neither a click nor a toggle flip. -/
theorem Button.handle_message_nonprimary (b : Button) (m : Msg)
    (h : m.isPrimaryButton = false) :
    (b.handle_message m).1.is_down = b.is_down ∧
    (b.handle_message m).1.has_click_cb = b.has_click_cb ∧
    (b.handle_message m).2.filter Evt.isClickOrFlip = [] := by
  cases m <;> simp [Msg.isPrimaryButton] at h <;>
    simp [Button.handle_message, Evt.isClickOrFlip] <;>
    split_ifs <;> simp [Evt.isClickOrFlip]

/-- Dispatching any sequence free of primary-button messages preserves
`is_down` and `has_click_cb` and emits neither a click nor a toggle
flip. -/
theorem Button.run_nonprimary (b : Button) (ms : List Msg)
    (h : ∀ m ∈ ms, m.isPrimaryButton = false) :
    (b.run ms).1.is_down = b.is_down ∧
    (b.run ms).1.has_click_cb = b.has_click_cb ∧
    (b.run ms).2.filter Evt.isClickOrFlip = [] := by
  induction ms generalizing b with
  | nil => simp [Button.run]
  | cons m ms ih =>
    have hm := h m (List.mem_cons_self m ms)
    have hms : ∀ m' ∈ ms, m'.isPrimaryButton = false :=
      fun m' hm' => h m' (List.mem_cons_of_mem m hm')
    obtain ⟨h1, h2, h3⟩ := Button.handle_message_nonprimary b m hm
    obtain ⟨g1, g2, g3⟩ := ih (b.handle_message m).1 hms
    refine ⟨g1.trans h1, g2.trans h2, ?_⟩
    simp [Button.run, List.filter_append, h3, g3]

/-- `ToggleButton` analogue of `Button.handle_message_nonprimary`, also
preserving `is_toggled`. -/
theorem ToggleButton.toggle_handle_nonprimary (t : ToggleButton) (m : Msg)
    (h : m.isPrimaryButton = false) :
    (t.handle_message m).1.is_down = t.is_down ∧
    (t.handle_message m).1.has_click_cb = t.has_click_cb ∧
    (t.handle_message m).1.is_toggled = t.is_toggled ∧
    (t.handle_message m).2.filter Evt.isClickOrFlip = [] := by
  cases m <;> simp [Msg.isPrimaryButton] at h <;>
    simp [ToggleButton.handle_message, Evt.isClickOrFlip] <;>
    split_ifs <;> simp [Evt.isClickOrFlip]

/-- `ToggleButton` analogue of `Button.run_nonprimary`. -/
theorem ToggleButton.toggle_run_nonprimary (t : ToggleButton) (ms : List Msg)
    (h : ∀ m ∈ ms, m.isPrimaryButton = false) :
    (t.run ms).1.is_down = t.is_down ∧
    (t.run ms).1.has_click_cb = t.has_click_cb ∧
    (t.run ms).1.is_toggled = t.is_toggled ∧
    (t.run ms).2.filter Evt.isClickOrFlip = [] := by
  induction ms generalizing t with
  | nil => simp [ToggleButton.run]
  | cons m ms ih =>
    have hm := h m (List.mem_cons_self m ms)
    have hms : ∀ m' ∈ ms, m'.isPrimaryButton = false :=
      fun m' hm' => h m' (List.mem_cons_of_mem m hm')
    obtain ⟨h1, h2, h3, h4⟩ := ToggleButton.toggle_handle_nonprimary t m hm
    obtain ⟨g1, g2, g3, g4⟩ := ih (t.handle_message m).1 hms
    refine ⟨g1.trans h1, g2.trans h2, g3.trans h3, ?_⟩
    simp [ToggleButton.run, List.filter_append, h4, g4]

/-- Splitting a dispatched message sequence splits the emitted trace. -/
theorem Button.run_append (b : Button) (l₁ l₂ : List Msg) :
    b.run (l₁ ++ l₂) =
      (((b.run l₁).1.run l₂).1, (b.run l₁).2 ++ ((b.run l₁).1.run l₂).2) := by
  induction l₁ generalizing b with
  | nil => simp [Button.run]
  | cons m ms ih => simp [Button.run, ih]

/-- `ToggleButton` analogue of `Button.run_append`. -/
theorem ToggleButton.toggle_run_append (t : ToggleButton) (l₁ l₂ : List Msg) :
    t.run (l₁ ++ l₂) =
      (((t.run l₁).1.run l₂).1, (t.run l₁).2 ++ ((t.run l₁).1.run l₂).2) := by
  induction l₁ generalizing t with
  | nil => simp [ToggleButton.run]
  | cons m ms ih => simp [ToggleButton.run, ih]

/-- A primary-button press sets the press-in-progress flag, preserves the
callback slot and emits no click/flip notification. -/
theorem Button.handle_message_down (b : Button) (inside : Bool) :
    (b.handle_message (Msg.lbuttonDown inside)).1.is_down = true ∧
    (b.handle_message (Msg.lbuttonDown inside)).1.has_click_cb = b.has_click_cb ∧
    (b.handle_message (Msg.lbuttonDown inside)).2.filter Evt.isClickOrFlip = [] := by
  by_cases h : b.deferred_running <;>
    simp [Button.handle_message, h, Evt.isClickOrFlip]

/-- `ToggleButton` analogue of `Button.handle_message_down`, also
preserving `is_toggled`. -/
theorem ToggleButton.toggle_handle_down (t : ToggleButton) (inside : Bool) :
    (t.handle_message (Msg.lbuttonDown inside)).1.is_down = true ∧
    (t.handle_message (Msg.lbuttonDown inside)).1.has_click_cb = t.has_click_cb ∧
    (t.handle_message (Msg.lbuttonDown inside)).1.is_toggled = t.is_toggled ∧
    (t.handle_message (Msg.lbuttonDown inside)).2.filter Evt.isClickOrFlip = [] := by
  by_cases h : t.deferred_running <;>
    simp [ToggleButton.handle_message, h, Evt.isClickOrFlip]

/-- A release inside the bounds while a press is in progress and a click
callback is registered notifies exactly one click. -/
theorem Button.handle_message_up_inside (b : Button)
    (hd : b.is_down = true) (hcb : b.has_click_cb = true) :
    (b.handle_message (Msg.lbuttonUp true)).2.filter Evt.isClickOrFlip = [Evt.click] := by
  by_cases h : b.state = State.hover <;>
    simp [Button.handle_message, hd, hcb, h, Evt.isClickOrFlip]

/-- A `ToggleButton` release inside the bounds while a press is in
progress flips the toggle exactly once and, when a callback is registered,
notifies exactly one click after the flip. -/
theorem ToggleButton.toggle_handle_up_inside (t : ToggleButton)
    (hd : t.is_down = true) (hcb : t.has_click_cb = true) :
    (t.handle_message (Msg.lbuttonUp true)).2.filter Evt.isClickOrFlip
        = [Evt.toggleFlip, Evt.click] ∧
    (t.handle_message (Msg.lbuttonUp true)).1.is_toggled = !t.is_toggled := by
  by_cases h : t.state = State.hover <;>
    simp [ToggleButton.handle_message, hd, hcb, h, Evt.isClickOrFlip]

/-- A release outside the bounds resets the state to `None`, clears the
press-in-progress flag, releases capture and emits no click/flip. -/
theorem Button.handle_message_up_outside (b : Button) :
    (b.handle_message (Msg.lbuttonUp false)).1.state = State.none ∧
    (b.handle_message (Msg.lbuttonUp false)).1.is_down = false ∧
    (b.handle_message (Msg.lbuttonUp false)).1.has_capture = false ∧
    (b.handle_message (Msg.lbuttonUp false)).2.filter Evt.isClickOrFlip = [] := by
  by_cases h : b.state = State.none <;>
    simp [Button.handle_message, h, Evt.isClickOrFlip]

/-- `ToggleButton` analogue of `Button.handle_message_up_outside`, also
leaving `is_toggled` unchanged. -/
theorem ToggleButton.toggle_handle_up_outside (t : ToggleButton) :
    (t.handle_message (Msg.lbuttonUp false)).1.state = State.none ∧
    (t.handle_message (Msg.lbuttonUp false)).1.is_down = false ∧
    (t.handle_message (Msg.lbuttonUp false)).1.has_capture = false ∧
    (t.handle_message (Msg.lbuttonUp false)).1.is_toggled = t.is_toggled ∧
    (t.handle_message (Msg.lbuttonUp false)).2.filter Evt.isClickOrFlip = [] := by
  by_cases h : t.state = State.none <;>
    simp [ToggleButton.handle_message, h, Evt.isClickOrFlip]

/-! ## Claim theorems -/

/-- C1: for every event sequence consisting of a primary-button press with
the cursor inside the bounds, any intervening non-primary-button events,
and the next primary-button release with the cursor inside the bounds, the
emitted click/toggle notifications of the whole sequence are exactly one
`onClick` invocation for a `Button`, and exactly one `is_toggled` flip
followed by one `onClick` invocation for a `ToggleButton` (so the flip
happens before the callback and the final toggle flag is the negation of
the initial one). -/
theorem click_fires_once_and_toggle_precedes :
    (∀ (b : Button) (mid : List Msg),
      b.has_click_cb = true →
      (∀ m ∈ mid, m.isPrimaryButton = false) →
      (b.run (Msg.lbuttonDown true :: (mid ++ [Msg.lbuttonUp true]))).2.filter
          Evt.isClickOrFlip = [Evt.click]) ∧
    (∀ (t : ToggleButton) (mid : List Msg),
      t.has_click_cb = true →
      (∀ m ∈ mid, m.isPrimaryButton = false) →
      (t.run (Msg.lbuttonDown true :: (mid ++ [Msg.lbuttonUp true]))).2.filter
          Evt.isClickOrFlip = [Evt.toggleFlip, Evt.click] ∧
      (t.run (Msg.lbuttonDown true :: (mid ++ [Msg.lbuttonUp true]))).1.is_toggled
          = !t.is_toggled) := by
  constructor
  · intro b mid hcb hmid
    obtain ⟨d1, d2, d3⟩ := Button.handle_message_down b true
    obtain ⟨r1, r2, r3⟩ :=
      Button.run_nonprimary (b.handle_message (Msg.lbuttonDown true)).1 mid hmid
    have e1 : (b.run (Msg.lbuttonDown true :: (mid ++ [Msg.lbuttonUp true]))).2
        = (b.handle_message (Msg.lbuttonDown true)).2
          ++ ((b.handle_message (Msg.lbuttonDown true)).1.run
                (mid ++ [Msg.lbuttonUp true])).2 := by
      simp [Button.run]
    have e2 : ((b.handle_message (Msg.lbuttonDown true)).1.run
          (mid ++ [Msg.lbuttonUp true])).2
        = ((b.handle_message (Msg.lbuttonDown true)).1.run mid).2
          ++ (((b.handle_message (Msg.lbuttonDown true)).1.run mid).1.run
                [Msg.lbuttonUp true]).2 := by
      rw [Button.run_append]
    have e3 : (((b.handle_message (Msg.lbuttonDown true)).1.run mid).1.run
          [Msg.lbuttonUp true]).2
        = (((b.handle_message (Msg.lbuttonDown true)).1.run mid).1.handle_message
            (Msg.lbuttonUp true)).2 := by
      simp [Button.run]
    rw [e1, e2, e3, List.filter_append, List.filter_append, d3, r3,
      Button.handle_message_up_inside _ (r1.trans d1) (r2.trans (d2.trans hcb))]
    rfl
  · intro t mid hcb hmid
    obtain ⟨d1, d2, d4, d3⟩ := ToggleButton.toggle_handle_down t true
    obtain ⟨r1, r2, r4, r3⟩ :=
      ToggleButton.toggle_run_nonprimary (t.handle_message (Msg.lbuttonDown true)).1 mid hmid
    obtain ⟨u1, u2⟩ :=
      ToggleButton.toggle_handle_up_inside
        ((t.handle_message (Msg.lbuttonDown true)).1.run mid).1
        (r1.trans d1) (r2.trans (d2.trans hcb))
    have e1 : t.run (Msg.lbuttonDown true :: (mid ++ [Msg.lbuttonUp true]))
        = (((t.handle_message (Msg.lbuttonDown true)).1.run
              (mid ++ [Msg.lbuttonUp true])).1,
           (t.handle_message (Msg.lbuttonDown true)).2
            ++ ((t.handle_message (Msg.lbuttonDown true)).1.run
                  (mid ++ [Msg.lbuttonUp true])).2) := by
      simp [ToggleButton.run]
    have e2 := ToggleButton.toggle_run_append
      (t.handle_message (Msg.lbuttonDown true)).1 mid [Msg.lbuttonUp true]
    have e3 : (((t.handle_message (Msg.lbuttonDown true)).1.run mid).1.run
          [Msg.lbuttonUp true])
        = ((((t.handle_message (Msg.lbuttonDown true)).1.run mid).1.handle_message
              (Msg.lbuttonUp true)).1,
           (((t.handle_message (Msg.lbuttonDown true)).1.run mid).1.handle_message
              (Msg.lbuttonUp true)).2 ++ []) := by
      simp [ToggleButton.run]
    constructor
    · rw [e1]
      simp only [e2, e3]
      rw [List.filter_append, List.filter_append, d3, r3]
      simp [u1]
    · rw [e1]
      simp only [e2, e3]
      rw [u2, r4, d4]

/-- C1 witness: a concrete toggle button with a registered callback, one
intervening mouse move, press and release inside the bounds. -/
theorem click_fires_once_and_toggle_precedes_witness :
    ({ Button.initial ⟨RGB 100 100 100, RGB 80 80 80, RGB 60 60 60⟩ with
        has_click_cb := true }.run
      (Msg.lbuttonDown true :: ([Msg.mouseMove true true] ++ [Msg.lbuttonUp true]))).2.filter
        Evt.isClickOrFlip = [Evt.click] ∧
    ({ ToggleButton.initial ⟨RGB 100 100 100, RGB 80 80 80, RGB 60 60 60⟩
          ⟨RGB 70 70 70, RGB 60 60 60, RGB 50 50 50⟩ with
        has_click_cb := true }.run
      (Msg.lbuttonDown true :: ([Msg.mouseMove true true] ++ [Msg.lbuttonUp true]))).2.filter
        Evt.isClickOrFlip = [Evt.toggleFlip, Evt.click] :=
  ⟨click_fires_once_and_toggle_precedes.1
      { Button.initial ⟨RGB 100 100 100, RGB 80 80 80, RGB 60 60 60⟩ with
          has_click_cb := true }
      [Msg.mouseMove true true] rfl (by decide),
    (click_fires_once_and_toggle_precedes.2
      { ToggleButton.initial ⟨RGB 100 100 100, RGB 80 80 80, RGB 60 60 60⟩
            ⟨RGB 70 70 70, RGB 60 60 60, RGB 50 50 50⟩ with
          has_click_cb := true }
      [Msg.mouseMove true true] rfl (by decide)).1⟩

/-- C4: for every press followed (with only non-primary events in between)
by a release with the cursor outside the bounds, no click is notified, a
`ToggleButton`'s toggle flag is unchanged, the state ends at `None`, the
press-in-progress flag is cleared and mouse capture is released. -/
theorem release_outside_no_click_no_toggle :
    (∀ (b : Button) (mid : List Msg),
      (∀ m ∈ mid, m.isPrimaryButton = false) →
      (b.run (Msg.lbuttonDown true :: (mid ++ [Msg.lbuttonUp false]))).2.filter
          Evt.isClickOrFlip = [] ∧
      (b.run (Msg.lbuttonDown true :: (mid ++ [Msg.lbuttonUp false]))).1.state
          = State.none ∧
      (b.run (Msg.lbuttonDown true :: (mid ++ [Msg.lbuttonUp false]))).1.is_down
          = false ∧
      (b.run (Msg.lbuttonDown true :: (mid ++ [Msg.lbuttonUp false]))).1.has_capture
          = false) ∧
    (∀ (t : ToggleButton) (mid : List Msg),
      (∀ m ∈ mid, m.isPrimaryButton = false) →
      (t.run (Msg.lbuttonDown true :: (mid ++ [Msg.lbuttonUp false]))).2.filter
          Evt.isClickOrFlip = [] ∧
      (t.run (Msg.lbuttonDown true :: (mid ++ [Msg.lbuttonUp false]))).1.is_toggled
          = t.is_toggled ∧
      (t.run (Msg.lbuttonDown true :: (mid ++ [Msg.lbuttonUp false]))).1.state
          = State.none ∧
      (t.run (Msg.lbuttonDown true :: (mid ++ [Msg.lbuttonUp false]))).1.is_down
          = false ∧
      (t.run (Msg.lbuttonDown true :: (mid ++ [Msg.lbuttonUp false]))).1.has_capture
          = false) := by
  constructor
  · intro b mid hmid
    obtain ⟨d1, d2, d3⟩ := Button.handle_message_down b true
    obtain ⟨r1, r2, r3⟩ :=
      Button.run_nonprimary (b.handle_message (Msg.lbuttonDown true)).1 mid hmid
    obtain ⟨u1, u2, u3, u4⟩ :=
      Button.handle_message_up_outside
        ((b.handle_message (Msg.lbuttonDown true)).1.run mid).1
    have e1 : b.run (Msg.lbuttonDown true :: (mid ++ [Msg.lbuttonUp false]))
        = (((b.handle_message (Msg.lbuttonDown true)).1.run
              (mid ++ [Msg.lbuttonUp false])).1,
           (b.handle_message (Msg.lbuttonDown true)).2
            ++ ((b.handle_message (Msg.lbuttonDown true)).1.run
                  (mid ++ [Msg.lbuttonUp false])).2) := by
      simp [Button.run]
    have e2 := Button.run_append
      (b.handle_message (Msg.lbuttonDown true)).1 mid [Msg.lbuttonUp false]
    have e3 : (((b.handle_message (Msg.lbuttonDown true)).1.run mid).1.run
          [Msg.lbuttonUp false])
        = ((((b.handle_message (Msg.lbuttonDown true)).1.run mid).1.handle_message
              (Msg.lbuttonUp false)).1,
           (((b.handle_message (Msg.lbuttonDown true)).1.run mid).1.handle_message
              (Msg.lbuttonUp false)).2 ++ []) := by
      simp [Button.run]
    rw [e1]
    simp only [e2, e3]
    refine ⟨?_, u1, u2, u3⟩
    rw [List.filter_append, List.filter_append, d3, r3]
    simp [u4]
  · intro t mid hmid
    obtain ⟨d1, d2, d4, d3⟩ := ToggleButton.toggle_handle_down t true
    obtain ⟨r1, r2, r4, r3⟩ :=
      ToggleButton.toggle_run_nonprimary (t.handle_message (Msg.lbuttonDown true)).1 mid hmid
    obtain ⟨u1, u2, u3, u5, u4⟩ :=
      ToggleButton.toggle_handle_up_outside
        ((t.handle_message (Msg.lbuttonDown true)).1.run mid).1
    have e1 : t.run (Msg.lbuttonDown true :: (mid ++ [Msg.lbuttonUp false]))
        = (((t.handle_message (Msg.lbuttonDown true)).1.run
              (mid ++ [Msg.lbuttonUp false])).1,
           (t.handle_message (Msg.lbuttonDown true)).2
            ++ ((t.handle_message (Msg.lbuttonDown true)).1.run
                  (mid ++ [Msg.lbuttonUp false])).2) := by
      simp [ToggleButton.run]
    have e2 := ToggleButton.toggle_run_append
      (t.handle_message (Msg.lbuttonDown true)).1 mid [Msg.lbuttonUp false]
    have e3 : (((t.handle_message (Msg.lbuttonDown true)).1.run mid).1.run
          [Msg.lbuttonUp false])
        = ((((t.handle_message (Msg.lbuttonDown true)).1.run mid).1.handle_message
              (Msg.lbuttonUp false)).1,
           (((t.handle_message (Msg.lbuttonDown true)).1.run mid).1.handle_message
              (Msg.lbuttonUp false)).2 ++ []) := by
      simp [ToggleButton.run]
    rw [e1]
    simp only [e2, e3]
    refine ⟨?_, u5.trans (r4.trans d4), u1, u2, u3⟩
    rw [List.filter_append, List.filter_append, d3, r3]
    simp [u4]

/-- C4 witness: concrete button and toggle button, press inside, one
mouse move outside while held, release outside. -/
theorem release_outside_no_click_no_toggle_witness :
    (({ Button.initial ⟨RGB 100 100 100, RGB 80 80 80, RGB 60 60 60⟩ with
          has_click_cb := true }.run
        (Msg.lbuttonDown true :: ([Msg.mouseMove false true] ++ [Msg.lbuttonUp false]))).2.filter
          Evt.isClickOrFlip = [] ∧
      ({ Button.initial ⟨RGB 100 100 100, RGB 80 80 80, RGB 60 60 60⟩ with
          has_click_cb := true }.run
        (Msg.lbuttonDown true :: ([Msg.mouseMove false true] ++ [Msg.lbuttonUp false]))).1.state
          = State.none) ∧
    (({ ToggleButton.initial ⟨RGB 100 100 100, RGB 80 80 80, RGB 60 60 60⟩
            ⟨RGB 70 70 70, RGB 60 60 60, RGB 50 50 50⟩ with
          has_click_cb := true }.run
        (Msg.lbuttonDown true :: ([Msg.mouseMove false true] ++ [Msg.lbuttonUp false]))).2.filter
          Evt.isClickOrFlip = [] ∧
      ({ ToggleButton.initial ⟨RGB 100 100 100, RGB 80 80 80, RGB 60 60 60⟩
            ⟨RGB 70 70 70, RGB 60 60 60, RGB 50 50 50⟩ with
          has_click_cb := true }.run
        (Msg.lbuttonDown true :: ([Msg.mouseMove false true] ++ [Msg.lbuttonUp false]))).1.is_toggled
          = ({ ToggleButton.initial ⟨RGB 100 100 100, RGB 80 80 80, RGB 60 60 60⟩
                  ⟨RGB 70 70 70, RGB 60 60 60, RGB 50 50 50⟩ with
                has_click_cb := true } : ToggleButton).is_toggled) :=
  ⟨⟨((release_outside_no_click_no_toggle.1
        { Button.initial ⟨RGB 100 100 100, RGB 80 80 80, RGB 60 60 60⟩ with
            has_click_cb := true }
        [Msg.mouseMove false true] (by decide))).1,
    ((release_outside_no_click_no_toggle.1
        { Button.initial ⟨RGB 100 100 100, RGB 80 80 80, RGB 60 60 60⟩ with
            has_click_cb := true }
        [Msg.mouseMove false true] (by decide))).2.1⟩,
   ⟨((release_outside_no_click_no_toggle.2
        { ToggleButton.initial ⟨RGB 100 100 100, RGB 80 80 80, RGB 60 60 60⟩
              ⟨RGB 70 70 70, RGB 60 60 60, RGB 50 50 50⟩ with
            has_click_cb := true }
        [Msg.mouseMove false true] (by decide))).1,
    ((release_outside_no_click_no_toggle.2
        { ToggleButton.initial ⟨RGB 100 100 100, RGB 80 80 80, RGB 60 60 60⟩
              ⟨RGB 70 70 70, RGB 60 60 60, RGB 50 50 50⟩ with
            has_click_cb := true }
        [Msg.mouseMove false true] (by decide))).2.1⟩⟩

/-- C5 counterexample: a freshly created button (state `None`, no press in
progress) processing a `WM_MOUSEMOVE` whose containment test reports the
cursor outside the client rectangle ends in state `Hover`, contradicting
the claim that the state is not set to `Hover` in this situation: the
handler's `else` branch sets `Hover` unconditionally. -/
theorem mousemove_outside_sets_hover_counterexample :
    (Button.initial ⟨RGB 100 100 100, RGB 80 80 80, RGB 60 60 60⟩).is_down = false ∧
    ((Button.initial ⟨RGB 100 100 100, RGB 80 80 80, RGB 60 60 60⟩).handle_message
        (Msg.mouseMove false false)).1.state = State.hover := by
  decide

/-- C5 as amended: a `WM_MOUSEMOVE` processed while the containment test
reports the cursor outside and no press is in progress sets the state to
`Hover` (the handler's `else` branch), for `Button` and `ToggleButton`
alike; the reset of an outside cursor to `None` happens only through the
`WM_MOUSELEAVE` notification, which always forces `None`. -/
theorem mousemove_outside_no_press_sets_hover :
    (∀ (b : Button) (held : Bool), b.is_down = false →
      (b.handle_message (Msg.mouseMove false held)).1.state = State.hover ∧
      (b.handle_message Msg.mouseLeave).1.state = State.none) ∧
    (∀ (t : ToggleButton) (held : Bool), t.is_down = false →
      (t.handle_message (Msg.mouseMove false held)).1.state = State.hover ∧
      (t.handle_message Msg.mouseLeave).1.state = State.none) := by
  constructor
  · intro b held hd
    constructor
    · by_cases h : b.state = State.hover <;>
        simp [Button.handle_message, h]
    · simp [Button.handle_message]
  · intro t held hd
    constructor
    · by_cases h : t.state = State.hover <;>
        simp [ToggleButton.handle_message, h]
    · simp [ToggleButton.handle_message]

/-- C5 witness: the amended statement evaluated on a concrete fresh
button. -/
theorem mousemove_outside_no_press_sets_hover_witness :
    ((Button.initial ⟨RGB 100 100 100, RGB 80 80 80, RGB 60 60 60⟩).handle_message
        (Msg.mouseMove false false)).1.state = State.hover ∧
    ((Button.initial ⟨RGB 100 100 100, RGB 80 80 80, RGB 60 60 60⟩).handle_message
        Msg.mouseLeave).1.state = State.none :=
  mousemove_outside_no_press_sets_hover.1
    (Button.initial ⟨RGB 100 100 100, RGB 80 80 80, RGB 60 60 60⟩) false rfl

/-- In every reachable button state the press-in-progress flag coincides
with holding mouse capture, and state `Down` implies a press is in
progress. -/
theorem Button.reachable_inv {b : Button} (h : Button.Reachable b) :
    b.is_down = b.has_capture ∧ (b.state = State.down → b.is_down = true) := by
  induction h with
  | init c => simp [Button.initial]
  | withClickCb _ ih => simpa using ih
  | step m hr ih =>
    obtain ⟨ih1, ih2⟩ := ih
    cases m <;>
      simp only [Button.handle_message] <;>
      (try split_ifs) <;>
      simp_all

/-- C6: in every button state reachable by any sequence of handled mouse
events from the initial state (state `None`, no capture), state `Down`
implies the button currently holds mouse capture. -/
theorem down_state_implies_capture (b : Button) (h : Button.Reachable b)
    (hd : b.state = State.down) : b.has_capture = true := by
  obtain ⟨h1, h2⟩ := Button.reachable_inv h
  rw [← h1]
  exact h2 hd

/-- C6 witness: a fresh button after one primary-button press is reachable,
in state `Down`, and holds capture. -/
theorem down_state_implies_capture_witness :
    ((Button.initial ⟨RGB 100 100 100, RGB 80 80 80, RGB 60 60 60⟩).handle_message
        (Msg.lbuttonDown true)).1.has_capture = true :=
  down_state_implies_capture _
    (Button.Reachable.step (Msg.lbuttonDown true)
      (Button.Reachable.init ⟨RGB 100 100 100, RGB 80 80 80, RGB 60 60 60⟩))
    (by decide)

/-- C2 counterexample: two toggle-button states with the same color sets
that agree on `state` and `is_toggled` but differ on `is_visual_down`
resolve different background colors, so the default-path paint color is
not determined by `(state, isToggled)` alone. The differing state is
reachable: a press sets `is_visual_down` and a release inside the bounds
moves `state` to `Hover` before the 50 ms press-flash clears the flag. -/
theorem bg_color_depends_on_visual_down_counterexample :
    ({ ToggleButton.initial ⟨RGB 100 100 100, RGB 80 80 80, RGB 60 60 60⟩
          ⟨RGB 70 70 70, RGB 60 60 60, RGB 50 50 50⟩ with
        state := State.hover, is_visual_down := true } : ToggleButton).state
      = ({ ToggleButton.initial ⟨RGB 100 100 100, RGB 80 80 80, RGB 60 60 60⟩
              ⟨RGB 70 70 70, RGB 60 60 60, RGB 50 50 50⟩ with
            state := State.hover } : ToggleButton).state ∧
    ({ ToggleButton.initial ⟨RGB 100 100 100, RGB 80 80 80, RGB 60 60 60⟩
          ⟨RGB 70 70 70, RGB 60 60 60, RGB 50 50 50⟩ with
        state := State.hover, is_visual_down := true } : ToggleButton).is_toggled
      = ({ ToggleButton.initial ⟨RGB 100 100 100, RGB 80 80 80, RGB 60 60 60⟩
              ⟨RGB 70 70 70, RGB 60 60 60, RGB 50 50 50⟩ with
            state := State.hover } : ToggleButton).is_toggled ∧
    ({ ToggleButton.initial ⟨RGB 100 100 100, RGB 80 80 80, RGB 60 60 60⟩
          ⟨RGB 70 70 70, RGB 60 60 60, RGB 50 50 50⟩ with
        state := State.hover, is_visual_down := true } : ToggleButton).bg_color
      ≠ ({ ToggleButton.initial ⟨RGB 100 100 100, RGB 80 80 80, RGB 60 60 60⟩
              ⟨RGB 70 70 70, RGB 60 60 60, RGB 50 50 50⟩ with
            state := State.hover } : ToggleButton).bg_color := by
  refine ⟨rfl, rfl, ?_⟩
  decide

/-- C2 as amended: the default-path background color is total (the
resolver is a total function) and is determined by the triple
`(isVisualDown, state, isToggled)` together with the fixed color sets:
any two states agreeing on those inputs resolve to the same color, for
`Button` and `ToggleButton` alike. -/
theorem bg_color_determined_by_visual_state_toggle :
    (∀ b₁ b₂ : Button,
      b₁.colors = b₂.colors → b₁.state = b₂.state →
      b₁.is_visual_down = b₂.is_visual_down →
      b₁.bg_color = b₂.bg_color) ∧
    (∀ t₁ t₂ : ToggleButton,
      t₁.colors = t₂.colors → t₁.toggled_colors = t₂.toggled_colors →
      t₁.state = t₂.state → t₁.is_toggled = t₂.is_toggled →
      t₁.is_visual_down = t₂.is_visual_down →
      t₁.bg_color = t₂.bg_color) := by
  constructor
  · intro b₁ b₂ h₁ h₂ h₃
    simp [Button.bg_color, h₁, h₂, h₃]
  · intro t₁ t₂ h₁ h₂ h₃ h₄ h₅
    simp [ToggleButton.bg_color, h₁, h₂, h₃, h₄, h₅]

/-- C2 amended witness: two buttons differing only in irrelevant fields
resolve the same color. -/
theorem bg_color_determined_witness :
    ({ Button.initial ⟨RGB 100 100 100, RGB 80 80 80, RGB 60 60 60⟩ with
        state := State.hover } : Button).bg_color
      = ({ Button.initial ⟨RGB 100 100 100, RGB 80 80 80, RGB 60 60 60⟩ with
            state := State.hover, track_mouse_leave := true,
            has_click_cb := true } : Button).bg_color :=
  bg_color_determined_by_visual_state_toggle.1
    { Button.initial ⟨RGB 100 100 100, RGB 80 80 80, RGB 60 60 60⟩ with
        state := State.hover }
    { Button.initial ⟨RGB 100 100 100, RGB 80 80 80, RGB 60 60 60⟩ with
        state := State.hover, track_mouse_leave := true, has_click_cb := true }
    rfl rfl rfl

/-- C3 counterexample: `HTNOWHERE` is not a resize-border classification,
yet the handler passes it through unchanged, so a query with default
result `HTNOWHERE`, cursor Y = 10 outside the padding band (frameY = 4,
padding = 4) and title-bar bottom 25 yields `HTNOWHERE`, not the
`HTCAPTION` the claim requires. -/
theorem nchittest_nowhere_passthrough_counterexample :
    (HTNOWHERE = HTRIGHT ∨ HTNOWHERE = HTLEFT ∨ HTNOWHERE = HTTOPLEFT ∨
        HTNOWHERE = HTTOP ∨ HTNOWHERE = HTTOPRIGHT ∨ HTNOWHERE = HTBOTTOMRIGHT ∨
        HTNOWHERE = HTBOTTOM ∨ HTNOWHERE = HTBOTTOMLEFT → False) ∧
    ¬(0 < (10 : Int) ∧ (10 : Int) < 4 + 4) ∧
    (10 : Int) < 25 ∧
    nchittest HTNOWHERE 4 4 25 10 = HTNOWHERE ∧
    nchittest HTNOWHERE 4 4 25 10 ≠ HTCAPTION := by
  refine ⟨?_, ?_, ?_, ?_, ?_⟩ <;> decide

/-- C3 as amended: for every hit-test query whose platform-default result
is none of the passed-through codes (`HTNOWHERE` plus the eight
resize-border codes): a cursor Y in the top resize-padding band
(0 < Y < frameY + padding) yields `HTTOP`; otherwise Y strictly below the
title-bar bottom yields `HTCAPTION`; otherwise `HTCLIENT`. -/
theorem nchittest_classification :
    ∀ defResult frameY padding titlebarBottom y : Int,
      isPassthroughHit defResult = false →
      ((0 < y ∧ y < frameY + padding) →
        nchittest defResult frameY padding titlebarBottom y = HTTOP) ∧
      (¬(0 < y ∧ y < frameY + padding) → y < titlebarBottom →
        nchittest defResult frameY padding titlebarBottom y = HTCAPTION) ∧
      (¬(0 < y ∧ y < frameY + padding) → titlebarBottom ≤ y →
        nchittest defResult frameY padding titlebarBottom y = HTCLIENT) := by
  intro defResult frameY padding titlebarBottom y hpass
  refine ⟨?_, ?_, ?_⟩
  · intro hband
    simp [nchittest, hpass, hband.1, hband.2]
  · intro hband hy
    simp only [nchittest, hpass, Bool.false_eq_true, if_false]
    rw [if_neg, if_pos hy]
    simp only [Bool.and_eq_true, decide_eq_true_eq]
    exact fun hc => hband ⟨hc.1, hc.2⟩
  · intro hband hy
    simp only [nchittest, hpass, Bool.false_eq_true, if_false]
    rw [if_neg, if_neg (not_lt.mpr hy)]
    simp only [Bool.and_eq_true, decide_eq_true_eq]
    exact fun hc => hband ⟨hc.1, hc.2⟩

/-- C3 amended witness: with DPI 96 metrics frameY = 4, padding = 4 and
title-bar bottom 25, a default result of `HTCLIENT` is reclassified:
Y = 10 yields `HTCAPTION`, Y = 30 yields `HTCLIENT`, and Y = 5 (inside the
padding band) yields `HTTOP`. -/
theorem nchittest_classification_witness :
    nchittest HTCLIENT 4 4 25 10 = HTCAPTION ∧
    nchittest HTCLIENT 4 4 25 30 = HTCLIENT ∧
    nchittest HTCLIENT 4 4 25 5 = HTTOP :=
  ⟨(nchittest_classification HTCLIENT 4 4 25 10 (by decide)).2.1 (by decide) (by decide),
   (nchittest_classification HTCLIENT 4 4 25 30 (by decide)).2.2 (by decide) (by decide),
   (nchittest_classification HTCLIENT 4 4 25 5 (by decide)).1 (by decide)⟩

/-- C7: for every title-bar rectangle and DPI, the chrome-button
rectangles are laid out right-to-left from the title bar's right edge with
the fixed DPI-scaled width `w = dpi_scale 47 dpi`: the close rectangle's
right edge is the title bar's right edge, `close.left = close.right - w`,
maximize abuts close (`maximize.right = close.left`), minimize abuts
maximize (`minimize.right = maximize.left`), and all three have width
`w`. -/
theorem titlebar_button_rects_layout :
    ∀ (dpi : Nat) (tb : Rect),
      (get_titlebar_button_rects dpi tb).close.right = tb.right ∧
      (get_titlebar_button_rects dpi tb).close.left
          = (get_titlebar_button_rects dpi tb).close.right - dpi_scale 47 dpi ∧
      (get_titlebar_button_rects dpi tb).maximize.right
          = (get_titlebar_button_rects dpi tb).close.left ∧
      (get_titlebar_button_rects dpi tb).minimize.right
          = (get_titlebar_button_rects dpi tb).maximize.left ∧
      (get_titlebar_button_rects dpi tb).close.right
          - (get_titlebar_button_rects dpi tb).close.left = dpi_scale 47 dpi ∧
      (get_titlebar_button_rects dpi tb).maximize.right
          - (get_titlebar_button_rects dpi tb).maximize.left = dpi_scale 47 dpi ∧
      (get_titlebar_button_rects dpi tb).minimize.right
          - (get_titlebar_button_rects dpi tb).minimize.left = dpi_scale 47 dpi := by
  intro dpi tb
  simp only [get_titlebar_button_rects]
  refine ⟨trivial, trivial, trivial, trivial, ?_, ?_, ?_⟩ <;> ring

/-- C8: running `reposition_components` twice in a row with the same
client rectangle, caption metric and DPI yields the same child positions
as running it once: the freshly computed rectangles never depend on the
current child positions, so the second run is a no-op. -/
theorem reposition_components_idempotent :
    ∀ (pos : ChildPositions) (clientRect : Rect) (captionCy : Int) (dpi : Nat),
      reposition_components
          (reposition_components pos clientRect captionCy dpi)
          clientRect captionCy dpi
        = reposition_components pos clientRect captionCy dpi := by
  intro pos clientRect captionCy dpi
  rfl

/-- C9: for every registry, (process-instance handle, class name) key and
platform outcome, a first registration attempt (key absent) performs the
native registration and records the key, and every repeated attempt for
the same key (key present) returns success without attempting the native
registration and leaves the registry unchanged. -/
theorem register_class_idempotent :
    ∀ (r : ComponentRegistry) (hInst : Int) (className : String) (platformOk : Bool),
      (r.isRegistered hInst className = false →
        (register_class r hInst className platformOk).attempted = true ∧
        (register_class r hInst className platformOk).registry.isRegistered
            hInst className = true) ∧
      (r.isRegistered hInst className = true →
        (register_class r hInst className platformOk).result = Except.ok () ∧
        (register_class r hInst className platformOk).attempted = false ∧
        (register_class r hInst className platformOk).registry = r) := by
  intro r hInst className platformOk
  constructor
  · intro habs
    have hset : r.set_registered hInst className
        = Except.ok ⟨(hInst, (className, true) :: r.instMap hInst)
            :: r.registry.filter (fun p => p.1 != hInst)⟩ := by
      simp only [ComponentRegistry.set_registered]
      rw [if_neg]
      simp only [ComponentRegistry.isRegistered] at habs
      simp [habs]
    have hreg : (ComponentRegistry.mk
        ((hInst, (className, true) :: r.instMap hInst)
          :: r.registry.filter (fun p => p.1 != hInst))).isRegistered
            hInst className = true := by
      simp [ComponentRegistry.isRegistered, ComponentRegistry.instMap, List.find?]
    cases hok : platformOk <;>
      simp [register_class, hset, hok, hreg]
  · intro hpres
    have hset : r.set_registered hInst className
        = Except.error Error.componentAlreadyRegistered := by
      simp only [ComponentRegistry.set_registered]
      rw [if_pos]
      simp only [ComponentRegistry.isRegistered] at hpres
      simp [hpres]
    simp [register_class, hset]

/-- C9 witness: registering `CUSTOM_BTN` for instance handle 1 in an empty
registry attempts and records the registration; registering it again in
the resulting registry succeeds without attempting and leaves the registry
unchanged. -/
theorem register_class_idempotent_witness :
    ((register_class ⟨[]⟩ 1 "CUSTOM_BTN" true).attempted = true ∧
      (register_class ⟨[]⟩ 1 "CUSTOM_BTN" true).registry.isRegistered
          1 "CUSTOM_BTN" = true) ∧
    ((register_class ⟨[(1, [("CUSTOM_BTN", true)])]⟩ 1 "CUSTOM_BTN" true).result
          = Except.ok () ∧
      (register_class ⟨[(1, [("CUSTOM_BTN", true)])]⟩ 1 "CUSTOM_BTN" true).attempted
          = false ∧
      (register_class ⟨[(1, [("CUSTOM_BTN", true)])]⟩ 1 "CUSTOM_BTN" true).registry
          = ⟨[(1, [("CUSTOM_BTN", true)])]⟩) :=
  ⟨(register_class_idempotent ⟨[]⟩ 1 "CUSTOM_BTN" true).1 (by decide),
   (register_class_idempotent ⟨[(1, [("CUSTOM_BTN", true)])]⟩ 1 "CUSTOM_BTN" true).2
     (by decide)⟩

/-- Identifies the computable numerator/denominator addition with `ℚ`
addition, so `f32add` is the exact sum rounded to the binary32 grid. -/
theorem qAdd_eq_add (a b : ℚ) : qAdd a b = a + b := (Rat.add_def' a b).symm

/-- Identifies the computable subtraction with `ℚ` subtraction. -/
theorem qSub_eq_sub (a b : ℚ) : qSub a b = a - b := (Rat.sub_def' a b).symm

/-- Identifies the computable division with `ℚ` division. -/
theorem qDiv_eq_div (a b : ℚ) : qDiv a b = a / b := (Rat.div_def' a b).symm

set_option maxRecDepth 1000000 in
/-- C10 counterexample: the `f32` centering utility does not preserve the
inner width exactly. Centering the representable inner rectangle
`{left 1, right 2}` (width 1) in the outer rectangle
`{left 2^24 = 16777216, right 16777220}`: the padding is 1.5, the new left
`16777216 + 1.5` rounds to `16777218`, and the new right
`16777218 + 1 = 16777219` is a tie between the grid neighbours `16777218`
and `16777220` that round-to-even resolves to `16777220`, so the stored
width becomes 2, not 1. -/
theorem center_d2drect_f32_width_counterexample :
    (center_d2drect_in_rect ⟨1, 0, 2, 1⟩ ⟨16777216, 0, 16777220, 4⟩).left
        = 16777218 ∧
    (center_d2drect_in_rect ⟨1, 0, 2, 1⟩ ⟨16777216, 0, 16777220, 4⟩).right
        = 16777220 ∧
    (center_d2drect_in_rect ⟨1, 0, 2, 1⟩ ⟨16777216, 0, 16777220, 4⟩).right
          - (center_d2drect_in_rect ⟨1, 0, 2, 1⟩ ⟨16777216, 0, 16777220, 4⟩).left
        ≠ (⟨1, 0, 2, 1⟩ : D2DRectF).right - (⟨1, 0, 2, 1⟩ : D2DRectF).left := by
  have h1 : (center_d2drect_in_rect ⟨1, 0, 2, 1⟩ ⟨16777216, 0, 16777220, 4⟩).left
      = 16777218 := by decide
  have h2 : (center_d2drect_in_rect ⟨1, 0, 2, 1⟩ ⟨16777216, 0, 16777220, 4⟩).right
      = 16777220 := by decide
  refine ⟨h1, h2, ?_⟩
  rw [h1, h2]
  norm_num

/-- C10 as amended: the integer rectangle-centering utility preserves the
inner rectangle's width and height exactly and only moves its position,
the new left/top being the outer left/top plus half (truncated toward
zero) of the difference between the outer and inner dimensions. The `f32`
variant computes the same quantities but rounds every step to the
binary32 grid, and exact preservation fails there (see the
counterexample). -/
theorem center_rect_in_rect_preserves_dims :
    ∀ (t o : Rect),
      (center_rect_in_rect t o).right - (center_rect_in_rect t o).left
          = t.right - t.left ∧
      (center_rect_in_rect t o).bottom - (center_rect_in_rect t o).top
          = t.bottom - t.top ∧
      (center_rect_in_rect t o).left
          = o.left + Int.tdiv ((o.right - o.left) - (t.right - t.left)) 2 ∧
      (center_rect_in_rect t o).top
          = o.top + Int.tdiv ((o.bottom - o.top) - (t.bottom - t.top)) 2 := by
  intro t o
  simp only [center_rect_in_rect]
  refine ⟨?_, ?_, trivial, trivial⟩ <;> ring

end Twt
